import Mathlib

/-!
Verification of the face-verification core of the `id` repository.

Shallow embedding of:
  * `app/services/face_verification_service.py`           (embedding variant)
  * `app/services/face_verification_service_fallback.py`  (heuristic variant)
  * the `/verify` route of `app/routes/verification_routes.py`

All arithmetic that the repository itself performs is modelled over `ℚ`.
Calls into external libraries (cv2 image decoding and cascade detection,
`face_recognition` encodings and `face_distance`, `cv2.compareHist`, numpy
statistics) are modelled as inputs or function parameters: the embedding
covers exactly the branching and arithmetic written in the repository's
own Python.

Python's `round(x, n)` rounds half to even on binary floats; `pyRound`
rounds half up.  The two agree everywhere except at exact decimal ties,
and no statement below depends on tie behaviour.
-/

namespace IdVerif

/-- Model of Python `round(q, n)` (half-to-even ties excepted, see header). -/
def pyRound (n : ℕ) (q : ℚ) : ℚ :=
  (round (q * (10 : ℚ) ^ n) : ℚ) / (10 : ℚ) ^ n

/-- `round(q, 2)`, used for every reported confidence. -/
def round2 (q : ℚ) : ℚ := pyRound 2 q

/-- `round(q, 4)`, used for reported distances, similarities and breakdowns. -/
def round4 (q : ℚ) : ℚ := pyRound 4 q

/-- Fixed two-decimal rendering of a nonnegative rational, modelling the
Python f-string `.2f` format used inside result messages. -/
def fmt2 (q : ℚ) : String :=
  let k := round (q * 100)
  let r := (k % 100).toNat
  toString (k / 100) ++ "." ++ (if r < 10 then "0" else "") ++ toString r

/-! ## Quality gate

`validate_image_quality` (textually identical in the two service files:
`face_verification_service.py` lines 386-460 and the fallback lines
379-453).  The decoded image is modelled by the statistics the cv2/numpy
calls return; `none` models `cv2.imread` returning `None`. -/

/-- Statistics of a successfully decoded image: `width`/`height` from
`image.shape`, `meanBrightness` = `np.mean(gray)`, `laplacianVar` =
`cv2.Laplacian(gray, cv2.CV_64F).var()`. -/
structure ImageStats where
  width : ℕ
  height : ℕ
  meanBrightness : ℚ
  laplacianVar : ℚ

/-- The dict returned by `validate_image_quality`: either
`(valid False, message, error_code)` or
`(valid True, message, details (resolution, brightness, sharpness))`. -/
inductive QualityReport where
  | invalid (message : String) (error_code : String)
  | accepted (message : String) (resolution : String) (brightness sharpness : ℚ)

/-- The `valid` key of the quality dict. -/
def QualityReport.valid : QualityReport → Bool
  | .invalid _ _ => false
  | .accepted _ _ _ _ => true

/-- The `message` key of the quality dict. -/
def QualityReport.message : QualityReport → String
  | .invalid m _ => m
  | .accepted m _ _ _ => m

/-- The `error_code` key of the quality dict (absent on valid reports). -/
def QualityReport.errorCode : QualityReport → Option String
  | .invalid _ c => some c
  | .accepted _ _ _ _ => none

/-- `validate_image_quality`: decode check, then minimum resolution, then
brightness window, then Laplacian sharpness, short-circuiting in that
order exactly as the Python `if`/`return` chain does. -/
def validate_image_quality (img : Option ImageStats) : QualityReport :=
  match img with
  | none => .invalid "Could not read image file" "IMAGE_READ_ERROR"
  | some s =>
    if s.width < 100 ∨ s.height < 100 then
      .invalid ("Image resolution too low: " ++ toString s.width ++ "x" ++
        toString s.height ++ ". Minimum 100x100 required") "LOW_RESOLUTION"
    else if s.meanBrightness < 30 then
      .invalid "Image is too dark for face recognition" "TOO_DARK"
    else if s.meanBrightness > 225 then
      .invalid "Image is too bright for face recognition" "TOO_BRIGHT"
    else if s.laplacianVar < 100 then
      .invalid "Image appears to be blurry" "BLURRY_IMAGE"
    else
      .accepted "Image quality is acceptable for face recognition"
        (toString s.width ++ "x" ++ toString s.height)
        (round2 s.meanBrightness) (round2 s.laplacianVar)

/-! ## Face locator output and representation extraction -/

/-- A face bounding box `(x, y, w, h)` as returned by
`cv2.CascadeClassifier.detectMultiScale`. -/
structure FaceBox where
  x : ℤ
  y : ℤ
  w : ℤ
  h : ℤ
deriving DecidableEq

/-- The heuristic feature bundle built by
`FaceVerificationServiceFallback.extract_face_features` (lines 148-156):
first 50 of the 256 intensity-histogram bins, mean and standard deviation
of the cropped grayscale region, pixel area `w*h` and aspect ratio `w/h`. -/
structure Features where
  histogram : List ℚ
  mean_intensity : ℚ
  std_intensity : ℚ
  face_area : ℤ
  aspect_ratio : ℚ
  face_coords : FaceBox
deriving DecidableEq

/-- Input to the fallback extraction pipeline for one image:
`fileNotFound` models the failed `os.path.exists` check, `readError`
models `cv2.imread` returning `None` inside `detect_faces_opencv`, and
`found faces` is the cascade detector's output on the decoded image. -/
inductive DetectInput where
  | fileNotFound
  | readError
  | found (faces : List FaceBox)

/-- Result of `extract_face_features`: a feature bundle with its face
location, or an error dict `(message, error_code)`. -/
inductive Extraction where
  | ok (features : Features) (face_location : FaceBox)
  | err (message : String) (error_code : String)

/-- The `error_code` key of an extraction dict (absent on success). -/
def Extraction.code? : Extraction → Option String
  | .ok _ _ => none
  | .err _ c => some c

/-- `FaceVerificationServiceFallback.extract_face_features` (lines 92-171).
The numpy feature computation on the single cropped region is an input
`mk`; the cardinality gating on the detector output is the repository's
own branching. -/
def extract_face_features (inp : DetectInput) (mk : FaceBox → Features) :
    Extraction :=
  match inp with
  | .fileNotFound => .err "Image file not found" "FILE_NOT_FOUND"
  | .readError => .err "Could not read image file" "IMAGE_READ_ERROR"
  | .found [] => .err "No face detected in image" "NO_FACE_DETECTED"
  | .found [b] => .ok (mk b) b
  | .found (a :: b :: rest) =>
      .err ("Multiple faces detected (" ++ toString (a :: b :: rest).length ++
        "). Please use image with single face") "MULTIPLE_FACES_DETECTED"

/-- Input to the embedding extraction pipeline for one image:
`fileNotFound` models the failed `os.path.exists` check, `detectError`
a failing `detect_faces_dlib`, and `found` the library's face locations
paired with the encodings computed for them. -/
inductive DlibInput where
  | fileNotFound
  | detectError (message : String) (error_code : String)
  | found (faces : List (FaceBox × List ℚ))

/-- Result of `extract_face_encoding`: an encoding with its face location,
or an error dict `(message, error_code)`. -/
inductive EncExtraction where
  | ok (encoding : List ℚ) (face_location : FaceBox)
  | err (message : String) (error_code : String)

/-- The `error_code` key of an encoding-extraction dict. -/
def EncExtraction.code? : EncExtraction → Option String
  | .ok _ _ => none
  | .err _ c => some c

/-- `FaceVerificationService.extract_face_encoding` (lines 152-212): passes
detection failures through, then gates on face cardinality and returns the
single encoding `encodings[0]` with its location `faces[0]`. -/
def extract_face_encoding (inp : DlibInput) : EncExtraction :=
  match inp with
  | .fileNotFound => .err "Image file not found" "FILE_NOT_FOUND"
  | .detectError m c => .err m c
  | .found [] => .err "No face detected in image" "NO_FACE_DETECTED"
  | .found [(b, e)] => .ok e b
  | .found (a :: b :: rest) =>
      .err ("Multiple faces detected (" ++ toString (a :: b :: rest).length ++
        "). Please use image with single face") "MULTIPLE_FACES_DETECTED"

/-! ## Comparison engine -/

/-- Sum of squared componentwise differences of two encodings; the
library's `face_recognition.face_distance` is the (elementwise Euclidean)
square root of this for equal-length vectors. -/
def sumSqDiff : List ℚ → List ℚ → ℚ
  | x :: xs, y :: ys => (x - y) ^ 2 + sumSqDiff xs ys
  | _, _ => 0

/-- The default face-recognition tolerance: `__init__(self, tolerance=0.6)`
and `Config.FACE_RECOGNITION_TOLERANCE = 0.6`. -/
def defaultTolerance : ℚ := 6 / 10

/-- Success dict of `FaceVerificationService.compare_faces`
(lines 274-293). -/
structure EmbCompareOk where
  result : String
  is_match : Bool
  confidence : ℚ
  face_distance : ℚ
  tolerance_used : ℚ
  message : String
  method : String
  camera_path : String
  id_card_path : String
  camera_face_location : FaceBox
  id_card_face_location : FaceBox

/-- A comparison call either returns a success dict or an error dict
`(message, error_code)`. -/
inductive CompareOutcome (α : Type) where
  | ok (r : α)
  | err (message : String) (error_code : String)

/-- The `error_code` key of a comparison dict (absent on success). -/
def CompareOutcome.code? : CompareOutcome α → Option String
  | .ok _ => none
  | .err _ c => some c

/-- The `confidence` key of an embedding comparison success dict. -/
def embConfidence? : CompareOutcome EmbCompareOk → Option ℚ
  | .ok r => some r.confidence
  | .err _ _ => none

/-- The `is_match` key of an embedding comparison success dict. -/
def embMatch? : CompareOutcome EmbCompareOk → Option Bool
  | .ok r => some r.is_match
  | .err _ _ => none

/-- The `face_distance` key of an embedding comparison success dict. -/
def embDistance? : CompareOutcome EmbCompareOk → Option ℚ
  | .ok r => some r.face_distance
  | .err _ _ => none

/-- `FaceVerificationService.compare_faces` (lines 214-301): extracts an
encoding from each image, tags per-image extraction failures, then scores
the distance `fd e1 e2` that `face_recognition.face_distance` returned
(the library call is the input `fd`). -/
def compare_faces (tol : ℚ) (cam idc : String) (in1 in2 : DlibInput)
    (fd : List ℚ → List ℚ → ℚ) : CompareOutcome EmbCompareOk :=
  match extract_face_encoding in1 with
  | .err m c => .err ("Live camera image: " ++ m) ("CAMERA_IMAGE_" ++ c)
  | .ok e1 b1 =>
    match extract_face_encoding in2 with
    | .err m c => .err ("ID card image: " ++ m) ("ID_CARD_IMAGE_" ++ c)
    | .ok e2 b2 =>
      let d := fd e1 e2
      let conf := max 0 ((1 - d) * 100)
      let im := decide (d ≤ tol)
      .ok { result := if im then "Verified" else "Not Verified"
            is_match := im
            confidence := round2 conf
            face_distance := round4 d
            tolerance_used := tol
            message :=
              if im then "Faces match with " ++ fmt2 conf ++ "% confidence"
              else "Faces do not match. Confidence: " ++ fmt2 conf ++ "%"
            method := "Advanced face_recognition library"
            camera_path := cam
            id_card_path := idc
            camera_face_location := b1
            id_card_face_location := b2 }

/-- Heuristic sub-score 2: `max(0, 1 - |meanA - meanB| / 255)`
(fallback lines 217-219). -/
def intensitySimilarity (f1 f2 : Features) : ℚ :=
  max 0 (1 - |f1.mean_intensity - f2.mean_intensity| / 255)

/-- Heuristic sub-score 3: `max(0, 1 - |ratioA - ratioB|)`
(fallback lines 221-223). -/
def ratioSimilarity (f1 f2 : Features) : ℚ :=
  max 0 (1 - |f1.aspect_ratio - f2.aspect_ratio|)

/-- Heuristic sub-score 4: `min(areaA, areaB) / max(areaA, areaB)`
(fallback lines 225-228). -/
def sizeSimilarity (f1 f2 : Features) : ℚ :=
  ((min f1.face_area f2.face_area : ℤ) : ℚ) /
    ((max f1.face_area f2.face_area : ℤ) : ℚ)

/-- The weighted combination of the four heuristic sub-scores with weights
0.4 / 0.2 / 0.2 / 0.2 (fallback lines 230-243); the histogram correlation
computed by `cv2.compareHist(..., cv2.HISTCMP_CORREL)` is the input `hc`
applied to the two stored (truncated) histograms. -/
def combinedSimilarity (hc : List ℚ → List ℚ → ℚ) (f1 f2 : Features) : ℚ :=
  hc f1.histogram f2.histogram * (4 / 10) +
    intensitySimilarity f1 f2 * (2 / 10) +
    ratioSimilarity f1 f2 * (2 / 10) +
    sizeSimilarity f1 f2 * (2 / 10)

/-- `basic_threshold = 0.4` (fallback line 249). -/
def basicThreshold : ℚ := 4 / 10

/-- Success dict of `FaceVerificationServiceFallback.compare_faces_basic`
(lines 262-288), with the `similarity_breakdown` sub-dict inlined as the
last four fields. -/
structure BasicCompareOk where
  result : String
  is_match : Bool
  confidence : ℚ
  similarity_score : ℚ
  tolerance_used : ℚ
  message : String
  method : String
  warning : String
  camera_path : String
  id_card_path : String
  camera_face_location : FaceBox
  id_card_face_location : FaceBox
  histogram_correlation : ℚ
  intensity_similarity : ℚ
  ratio_similarity : ℚ
  size_similarity : ℚ

/-- The `confidence` key of a heuristic comparison success dict. -/
def basicConfidence? : CompareOutcome BasicCompareOk → Option ℚ
  | .ok r => some r.confidence
  | .err _ _ => none

/-- The `is_match` key of a heuristic comparison success dict. -/
def basicMatch? : CompareOutcome BasicCompareOk → Option Bool
  | .ok r => some r.is_match
  | .err _ _ => none

/-- The `similarity_score` key of a heuristic comparison success dict. -/
def basicScore? : CompareOutcome BasicCompareOk → Option ℚ
  | .ok r => some r.similarity_score
  | .err _ _ => none

/-- `FaceVerificationServiceFallback.compare_faces_basic` (lines 173-296):
extracts features from each image, tags per-image extraction failures,
then combines the four sub-scores. -/
def compare_faces_basic (cam idc : String) (in1 in2 : DetectInput)
    (mk1 mk2 : FaceBox → Features) (hc : List ℚ → List ℚ → ℚ) :
    CompareOutcome BasicCompareOk :=
  match extract_face_features in1 mk1 with
  | .err m c => .err ("Live camera image: " ++ m) ("CAMERA_IMAGE_" ++ c)
  | .ok f1 b1 =>
    match extract_face_features in2 mk2 with
    | .err m c => .err ("ID card image: " ++ m) ("ID_CARD_IMAGE_" ++ c)
    | .ok f2 b2 =>
      let combined := combinedSimilarity hc f1 f2
      let conf := max 0 (min 100 (combined * 100))
      let im := decide (basicThreshold ≤ combined)
      .ok { result := if im then "Verified" else "Not Verified"
            is_match := im
            confidence := round2 conf
            similarity_score := round4 combined
            tolerance_used := basicThreshold
            message :=
              if im then
                "Faces appear to match with " ++ fmt2 conf ++
                  "% confidence (basic method)"
              else
                "Faces do not appear to match. Confidence: " ++ fmt2 conf ++
                  "% (basic method)"
            method := "Basic OpenCV comparison"
            warning := "This is a basic comparison method. For better accuracy, install face_recognition library."
            camera_path := cam
            id_card_path := idc
            camera_face_location := b1
            id_card_face_location := b2
            histogram_correlation := round4 (hc f1.histogram f2.histogram)
            intensity_similarity := round4 (intensitySimilarity f1 f2)
            ratio_similarity := round4 (ratioSimilarity f1 f2)
            size_similarity := round4 (sizeSimilarity f1 f2) }

/-! ## Verification records (`verify_identity` of both services)

The Python dicts are modelled as ordered association lists of
JSON-like values, so that the presence and absence of keys is part of
the model. -/

/-- A JSON-like value stored in a result dict. -/
inductive JVal where
  | jb (b : Bool)
  | jn (q : ℚ)
  | js (s : String)
  | jobj (fields : List (String × JVal))
  | jnull

/-- First-match key lookup in a dict, `none` modelling a Python
`KeyError`. -/
def jlookup (l : List (String × JVal)) (k : String) : Option JVal :=
  match l with
  | [] => none
  | (k1, v) :: rest => if k1 = k then some v else jlookup rest k

/-- The recommendation tiers of `FaceVerificationService.verify_identity`
(lines 353-359). -/
def embRecommendation (c : ℚ) : String :=
  if c ≥ 80 then "High confidence match"
  else if c ≥ 60 then "Moderate confidence match"
  else "Low confidence - manual review recommended"

/-- The recommendation tiers of
`FaceVerificationServiceFallback.verify_identity` (lines 346-352). -/
def basicRecommendation (c : ℚ) : String :=
  if c ≥ 70 then "Moderate confidence match (basic method)"
  else if c ≥ 50 then "Low confidence match (basic method)"
  else "Very low confidence - manual review required"

/-- The failure dict shared by both `verify_identity` variants. -/
def verifyFailureRecord (m c : String) (student : JVal) :
    List (String × JVal) :=
  [("success", .jb false), ("result", .js "Verification Failed"),
   ("confidence", .jn 0), ("message", .js m), ("error_code", .js c),
   ("student_details", student)]

/-- The success dict of `FaceVerificationService.verify_identity`
(lines 336-359), with the recommendation key added after construction
exactly as in the Python. -/
def embSuccessRecord (r : EmbCompareOk) (cam idc ts : String)
    (student : JVal) : List (String × JVal) :=
  [("success", .jb true), ("result", .js r.result),
   ("is_match", .jb r.is_match), ("confidence", .jn r.confidence),
   ("face_distance", .jn r.face_distance), ("message", .js r.message),
   ("method", .js r.method), ("student_details", student),
   ("verification_details", .jobj
     [("tolerance_used", .jn r.tolerance_used), ("camera_image", .js cam),
      ("id_card_image", .js idc), ("timestamp", .js ts)])] ++
  [("recommendation", .js (embRecommendation r.confidence))]

/-- `FaceVerificationService.verify_identity` (lines 303-363); the wall
clock read by `_get_timestamp` is the input `ts`. -/
def emb_verify_identity (tol : ℚ) (cam idc ts : String) (student : JVal)
    (in1 in2 : DlibInput) (fd : List ℚ → List ℚ → ℚ) :
    List (String × JVal) :=
  match compare_faces tol cam idc in1 in2 fd with
  | .err m c => verifyFailureRecord m c student
  | .ok r => embSuccessRecord r cam idc ts student

/-- The success dict of `FaceVerificationServiceFallback.verify_identity`
(lines 326-352), with the recommendation key added after construction. -/
def basicSuccessRecord (r : BasicCompareOk) (cam idc ts : String)
    (student : JVal) : List (String × JVal) :=
  [("success", .jb true), ("result", .js r.result),
   ("is_match", .jb r.is_match), ("confidence", .jn r.confidence),
   ("similarity_score", .jn r.similarity_score), ("message", .js r.message),
   ("method", .js r.method), ("warning", .js r.warning),
   ("student_details", student),
   ("verification_details", .jobj
     [("tolerance_used", .jn r.tolerance_used), ("camera_image", .js cam),
      ("id_card_image", .js idc), ("timestamp", .js ts),
      ("similarity_breakdown", .jobj
        [("histogram_correlation", .jn r.histogram_correlation),
         ("intensity_similarity", .jn r.intensity_similarity),
         ("ratio_similarity", .jn r.ratio_similarity),
         ("size_similarity", .jn r.size_similarity)])])] ++
  [("recommendation", .js (basicRecommendation r.confidence))]

/-- `FaceVerificationServiceFallback.verify_identity` (lines 298-356). -/
def basic_verify_identity (cam idc ts : String) (student : JVal)
    (in1 in2 : DetectInput) (mk1 mk2 : FaceBox → Features)
    (hc : List ℚ → List ℚ → ℚ) : List (String × JVal) :=
  match compare_faces_basic cam idc in1 in2 mk1 mk2 hc with
  | .err m c => verifyFailureRecord m c student
  | .ok r => basicSuccessRecord r cam idc ts student

/-! ## The `/verify` route (`verification_routes.py`, handler
`verify_identity`, lines 123-266) -/

/-- Response of the `/verify` handler up to the quality gate: either the
400 `POOR_IMAGE_QUALITY` response carrying the per-image issue list, or
the branch that proceeds to the service `verify_identity` call. -/
inductive RouteResponse where
  | qualityError (error_code : String) (quality_issues : List String)
  | proceeded (verification_result : List (String × JVal))

/-- The quality gate of the `/verify` handler (lines 185-206): it builds
the tagged issue list from the two quality reports and only reaches the
service call (whose eventual result dict is the input `verification`)
when that list is empty. -/
def route_verify (camQ idQ : QualityReport)
    (verification : List (String × JVal)) : RouteResponse :=
  let issues :=
    (if camQ.valid then [] else ["Camera image: " ++ camQ.message]) ++
      (if idQ.valid then [] else ["ID card image: " ++ idQ.message])
  if issues = [] then .proceeded verification
  else .qualityError "POOR_IMAGE_QUALITY" issues

/-- The `verification_result["face_distance"]` dict access performed by
the route success path (`verification_routes.py` line 230); `none` models
the `KeyError` that sends the handler into its `except` branch. -/
def route_success_face_distance (vr : List (String × JVal)) : Option JVal :=
  jlookup vr "face_distance"

/-- A concrete face box used in witnesses and counterexamples. -/
def box0 : FaceBox := { x := 0, y := 0, w := 30, h := 30 }

/-- A concrete feature bundle used in witnesses and counterexamples. -/
def f0 : Features :=
  { histogram := [1, 2, 3], mean_intensity := 100, std_intensity := 10,
    face_area := 900, aspect_ratio := 1, face_coords := box0 }

/-! ## Theorems -/

/-- Helper: the explicit success record of `compare_faces` when both
extractions succeed. -/
theorem compare_faces_ok_eq (tol : ℚ) (cam idc : String)
    (in1 in2 : DlibInput) (fd : List ℚ → List ℚ → ℚ) (e1 e2 : List ℚ)
    (b1 b2 : FaceBox)
    (h1 : extract_face_encoding in1 = .ok e1 b1)
    (h2 : extract_face_encoding in2 = .ok e2 b2) :
    compare_faces tol cam idc in1 in2 fd = .ok
      { result :=
          if decide (fd e1 e2 ≤ tol) then "Verified" else "Not Verified"
        is_match := decide (fd e1 e2 ≤ tol)
        confidence := round2 (max 0 ((1 - fd e1 e2) * 100))
        face_distance := round4 (fd e1 e2)
        tolerance_used := tol
        message :=
          if decide (fd e1 e2 ≤ tol) then
            "Faces match with " ++ fmt2 (max 0 ((1 - fd e1 e2) * 100)) ++
              "% confidence"
          else
            "Faces do not match. Confidence: " ++
              fmt2 (max 0 ((1 - fd e1 e2) * 100)) ++ "%"
        method := "Advanced face_recognition library"
        camera_path := cam
        id_card_path := idc
        camera_face_location := b1
        id_card_face_location := b2 } := by
  simp only [compare_faces, h1, h2]

/-- Helper: the explicit success record of `compare_faces_basic` when both
extractions succeed. -/
theorem compare_faces_basic_ok_eq (cam idc : String) (in1 in2 : DetectInput)
    (mk1 mk2 : FaceBox → Features) (hc : List ℚ → List ℚ → ℚ)
    (f1 f2 : Features) (b1 b2 : FaceBox)
    (h1 : extract_face_features in1 mk1 = .ok f1 b1)
    (h2 : extract_face_features in2 mk2 = .ok f2 b2) :
    compare_faces_basic cam idc in1 in2 mk1 mk2 hc = .ok
      { result :=
          if decide (basicThreshold ≤ combinedSimilarity hc f1 f2) then
            "Verified" else "Not Verified"
        is_match := decide (basicThreshold ≤ combinedSimilarity hc f1 f2)
        confidence :=
          round2 (max 0 (min 100 (combinedSimilarity hc f1 f2 * 100)))
        similarity_score := round4 (combinedSimilarity hc f1 f2)
        tolerance_used := basicThreshold
        message :=
          if decide (basicThreshold ≤ combinedSimilarity hc f1 f2) then
            "Faces appear to match with " ++
              fmt2 (max 0 (min 100 (combinedSimilarity hc f1 f2 * 100))) ++
              "% confidence (basic method)"
          else
            "Faces do not appear to match. Confidence: " ++
              fmt2 (max 0 (min 100 (combinedSimilarity hc f1 f2 * 100))) ++
              "% (basic method)"
        method := "Basic OpenCV comparison"
        warning := "This is a basic comparison method. For better accuracy, install face_recognition library."
        camera_path := cam
        id_card_path := idc
        camera_face_location := b1
        id_card_face_location := b2
        histogram_correlation := round4 (hc f1.histogram f2.histogram)
        intensity_similarity := round4 (intensitySimilarity f1 f2)
        ratio_similarity := round4 (ratioSimilarity f1 f2)
        size_similarity := round4 (sizeSimilarity f1 f2) } := by
  simp only [compare_faces_basic, h1, h2]

/-- C4: validate_image_quality runs its checks in order and short-circuits
on the first failure: an undecodable image yields IMAGE_READ_ERROR; else a
width or height below 100 yields LOW_RESOLUTION; else mean grayscale
intensity below 30 yields TOO_DARK and above 225 TOO_BRIGHT; else
Laplacian variance below 100 yields BLURRY_IMAGE; otherwise the report is
valid with no error kind set. -/
theorem C4_validate_image_quality_order :
    (validate_image_quality none).errorCode = some "IMAGE_READ_ERROR" ∧
    ∀ s : ImageStats,
      ((s.width < 100 ∨ s.height < 100) →
        (validate_image_quality (some s)).errorCode = some "LOW_RESOLUTION") ∧
      (100 ≤ s.width → 100 ≤ s.height → s.meanBrightness < 30 →
        (validate_image_quality (some s)).errorCode = some "TOO_DARK") ∧
      (100 ≤ s.width → 100 ≤ s.height → 30 ≤ s.meanBrightness →
        225 < s.meanBrightness →
        (validate_image_quality (some s)).errorCode = some "TOO_BRIGHT") ∧
      (100 ≤ s.width → 100 ≤ s.height → 30 ≤ s.meanBrightness →
        s.meanBrightness ≤ 225 → s.laplacianVar < 100 →
        (validate_image_quality (some s)).errorCode = some "BLURRY_IMAGE") ∧
      (100 ≤ s.width → 100 ≤ s.height → 30 ≤ s.meanBrightness →
        s.meanBrightness ≤ 225 → 100 ≤ s.laplacianVar →
        (validate_image_quality (some s)).valid = true ∧
          (validate_image_quality (some s)).errorCode = none) := by
  refine ⟨rfl, fun s => ⟨?_, ?_, ?_, ?_, ?_⟩⟩
  · intro h
    simp only [validate_image_quality, if_pos h, QualityReport.errorCode]
  · intro hw hh hdark
    have hres : ¬ (s.width < 100 ∨ s.height < 100) := by omega
    simp only [validate_image_quality, if_neg hres, if_pos hdark,
      QualityReport.errorCode]
  · intro hw hh hdark hbright
    have hres : ¬ (s.width < 100 ∨ s.height < 100) := by omega
    have h1 : ¬ s.meanBrightness < 30 := not_lt.mpr hdark
    simp only [validate_image_quality, if_neg hres, if_neg h1,
      if_pos hbright, QualityReport.errorCode]
  · intro hw hh hdark hbright hblur
    have hres : ¬ (s.width < 100 ∨ s.height < 100) := by omega
    have h1 : ¬ s.meanBrightness < 30 := not_lt.mpr hdark
    have h2 : ¬ s.meanBrightness > 225 := not_lt.mpr hbright
    simp only [validate_image_quality, if_neg hres, if_neg h1, if_neg h2,
      if_pos hblur, QualityReport.errorCode]
  · intro hw hh hdark hbright hsharp
    have hres : ¬ (s.width < 100 ∨ s.height < 100) := by omega
    have h1 : ¬ s.meanBrightness < 30 := not_lt.mpr hdark
    have h2 : ¬ s.meanBrightness > 225 := not_lt.mpr hbright
    have h3 : ¬ s.laplacianVar < 100 := not_lt.mpr hsharp
    constructor
    · simp only [validate_image_quality, if_neg hres, if_neg h1, if_neg h2,
        if_neg h3, QualityReport.valid]
    · simp only [validate_image_quality, if_neg hres, if_neg h1, if_neg h2,
        if_neg h3, QualityReport.errorCode]

/-- Witness for C4 at a concrete 200x200 image of mean brightness 10. -/
theorem C4_validate_image_quality_order_witness :
    (100 ≤ 200 ∧ (10 : ℚ) < 30) ∧
    (validate_image_quality
      (some { width := 200, height := 200, meanBrightness := 10,
              laplacianVar := 0 })).errorCode = some "TOO_DARK" := by
  refine ⟨⟨by norm_num, by norm_num⟩, ?_⟩
  exact (C4_validate_image_quality_order.2
    { width := 200, height := 200, meanBrightness := 10, laplacianVar := 0
    }).2.1 (by norm_num) (by norm_num) (by norm_num)

/-- C3: representation extraction enforces face cardinality in both
variants: a detector output of 0 faces yields NO_FACE_DETECTED and one of
2 or more faces yields MULTIPLE_FACES_DETECTED, never a success picking
one region. -/
theorem C3_cardinality_gate :
    (∀ mk : FaceBox → Features,
      (extract_face_features (.found []) mk).code? =
        some "NO_FACE_DETECTED" ∧
      ∀ faces : List FaceBox, 2 ≤ faces.length →
        (extract_face_features (.found faces) mk).code? =
          some "MULTIPLE_FACES_DETECTED") ∧
    ((extract_face_encoding (.found [])).code? = some "NO_FACE_DETECTED" ∧
      ∀ faces : List (FaceBox × List ℚ), 2 ≤ faces.length →
        (extract_face_encoding (.found faces)).code? =
          some "MULTIPLE_FACES_DETECTED") := by
  refine ⟨fun mk => ⟨rfl, fun faces h => ?_⟩, rfl, fun faces h => ?_⟩
  · rcases faces with _ | ⟨a, _ | ⟨b, t⟩⟩
    · simp at h
    · simp at h
    · rfl
  · rcases faces with _ | ⟨a, _ | ⟨b, t⟩⟩
    · simp at h
    · simp at h
    · rfl

/-- Witness for C3 at a two-face detector output. -/
theorem C3_cardinality_gate_witness :
    2 ≤ [box0, box0].length ∧
    (extract_face_features (.found [box0, box0]) (fun _ => f0)).code? =
      some "MULTIPLE_FACES_DETECTED" :=
  ⟨by decide, (C3_cardinality_gate.1 (fun _ => f0)).2 [box0, box0]
    (by decide)⟩

/-- C1 (amended): when the embedding variant extracts one encoding from
each image, compare_faces returns
confidence = round(max(0, (1 - distance) * 100), 2) — the formula of the
claim rounded to two decimal places as on source line 278 — and
is_match = (distance <= tolerance) unrounded, where distance is the
Euclidean face distance of the two encodings and the configured tolerance
defaults to 0.6. -/
theorem C1_embedding_confidence_amended
    (tol : ℚ) (cam idc : String) (in1 in2 : DlibInput)
    (fd : List ℚ → List ℚ → ℚ) (e1 e2 : List ℚ) (b1 b2 : FaceBox)
    (h1 : extract_face_encoding in1 = .ok e1 b1)
    (h2 : extract_face_encoding in2 = .ok e2 b2)
    (hd0 : 0 ≤ fd e1 e2) (hd : (fd e1 e2) ^ 2 = sumSqDiff e1 e2) :
    ∃ r, compare_faces tol cam idc in1 in2 fd = .ok r ∧
      r.confidence = round2 (max 0 ((1 - fd e1 e2) * 100)) ∧
      r.is_match = decide (fd e1 e2 ≤ tol) ∧
      r.tolerance_used = tol ∧ defaultTolerance = 6 / 10 :=
  ⟨_, compare_faces_ok_eq tol cam idc in1 in2 fd e1 e2 b1 b2 h1 h2,
    rfl, rfl, rfl, rfl⟩

/-- Witness for C1 (amended) at encodings [1] and [0] at distance 1. -/
theorem C1_embedding_confidence_amended_witness :
    (extract_face_encoding (.found [(box0, [1])]) = .ok [1] box0 ∧
      extract_face_encoding (.found [(box0, [0])]) = .ok [0] box0 ∧
      0 ≤ (1 : ℚ) ∧ ((1 : ℚ)) ^ 2 = sumSqDiff [1] [0]) ∧
    ∃ r, compare_faces defaultTolerance "cam.jpg" "id.jpg"
        (.found [(box0, [1])]) (.found [(box0, [0])])
        (fun _ _ => 1) = .ok r ∧
      r.confidence = round2 (max 0 ((1 - 1) * 100)) ∧
      r.is_match = decide ((1 : ℚ) ≤ defaultTolerance) ∧
      r.tolerance_used = defaultTolerance ∧ defaultTolerance = 6 / 10 := by
  refine ⟨⟨rfl, rfl, by norm_num, by norm_num [sumSqDiff]⟩, ?_⟩
  exact C1_embedding_confidence_amended defaultTolerance "cam.jpg" "id.jpg"
    _ _ (fun _ _ => 1) [1] [0] box0 box0 rfl rfl (by norm_num)
    (by norm_num [sumSqDiff])

/-- Counterexample for C1 as stated: at Euclidean distance 1/3 the
returned confidence is the rounded value 66.67, not
max(0, (1 - 1/3) * 100) = 200/3. -/
theorem C1_embedding_confidence_counterexample :
    (0 ≤ (1 / 3 : ℚ) ∧ ((1 / 3 : ℚ)) ^ 2 = sumSqDiff [1 / 3] [0]) ∧
    embConfidence? (compare_faces defaultTolerance "cam.jpg" "id.jpg"
      (.found [(box0, [1 / 3])]) (.found [(box0, [0])])
      (fun _ _ => 1 / 3)) = some (6667 / 100) ∧
    (6667 / 100 : ℚ) ≠ max 0 ((1 - 1 / 3) * 100) := by
  have hm : max (0 : ℚ) ((1 - 1 / 3) * 100) = 200 / 3 := by
    rw [max_eq_right] <;> norm_num
  refine ⟨⟨by norm_num, by norm_num [sumSqDiff]⟩, ?_, by rw [hm]; norm_num⟩
  simp only [compare_faces, extract_face_encoding, embConfidence?]
  rw [hm]
  norm_num [round2, pyRound, round_eq, Int.floor_eq_iff]

/-- C2 (amended): when the heuristic variant extracts features from both
images, compare_faces_basic combines the four sub-scores (histogram
correlation over the stored truncated histograms, intensity similarity
max(0, 1 - |meanA - meanB| / 255), aspect-ratio similarity
max(0, 1 - |ratioA - ratioB|), size similarity min(area)/max(area)) with
weights 0.4/0.2/0.2/0.2, returns
confidence = round(clamp(combined * 100, 0, 100), 2) — the claimed clamp
rounded to two decimal places per source line 266 — is_match =
(combined >= 0.4) unrounded, and attaches all four sub-scores (rounded to
four decimal places) as the breakdown. -/
theorem C2_basic_compare_amended
    (cam idc : String) (in1 in2 : DetectInput)
    (mk1 mk2 : FaceBox → Features) (hc : List ℚ → List ℚ → ℚ)
    (f1 f2 : Features) (b1 b2 : FaceBox)
    (h1 : extract_face_features in1 mk1 = .ok f1 b1)
    (h2 : extract_face_features in2 mk2 = .ok f2 b2) :
    ∃ r, compare_faces_basic cam idc in1 in2 mk1 mk2 hc = .ok r ∧
      r.confidence =
        round2 (max 0 (min 100 (combinedSimilarity hc f1 f2 * 100))) ∧
      r.is_match = decide (basicThreshold ≤ combinedSimilarity hc f1 f2) ∧
      r.histogram_correlation = round4 (hc f1.histogram f2.histogram) ∧
      r.intensity_similarity = round4 (intensitySimilarity f1 f2) ∧
      r.ratio_similarity = round4 (ratioSimilarity f1 f2) ∧
      r.size_similarity = round4 (sizeSimilarity f1 f2) ∧
      r.similarity_score = round4 (combinedSimilarity hc f1 f2) ∧
      basicThreshold = 4 / 10 :=
  ⟨_, compare_faces_basic_ok_eq cam idc in1 in2 mk1 mk2 hc f1 f2 b1 b2 h1 h2,
    rfl, rfl, rfl, rfl, rfl, rfl, rfl, rfl⟩

/-- Witness for C2 (amended) at two identical concrete feature bundles. -/
theorem C2_basic_compare_amended_witness :
    (extract_face_features (.found [box0]) (fun _ => f0) = .ok f0 box0) ∧
    ∃ r, compare_faces_basic "cam.jpg" "id.jpg" (.found [box0])
        (.found [box0]) (fun _ => f0) (fun _ => f0)
        (fun _ _ => 1) = .ok r ∧
      r.confidence = round2 (max 0 (min 100
        (combinedSimilarity (fun _ _ => 1) f0 f0 * 100))) ∧
      r.is_match =
        decide (basicThreshold ≤ combinedSimilarity (fun _ _ => 1) f0 f0) ∧
      r.histogram_correlation = round4 1 ∧
      r.intensity_similarity = round4 (intensitySimilarity f0 f0) ∧
      r.ratio_similarity = round4 (ratioSimilarity f0 f0) ∧
      r.size_similarity = round4 (sizeSimilarity f0 f0) ∧
      r.similarity_score = round4 (combinedSimilarity (fun _ _ => 1) f0 f0) ∧
      basicThreshold = 4 / 10 := by
  refine ⟨rfl, ?_⟩
  exact C2_basic_compare_amended "cam.jpg" "id.jpg" _ _ (fun _ => f0)
    (fun _ => f0) (fun _ _ => 1) f0 f0 box0 box0 rfl rfl

/-- Counterexample for C2 as stated: with histogram correlation 1/6 and
identical features otherwise, the combined score is 2/3 and the returned
confidence is the rounded value 66.67, not clamp(200/3, 0, 100) = 200/3. -/
theorem C2_basic_compare_counterexample :
    basicConfidence? (compare_faces_basic "cam.jpg" "id.jpg"
      (.found [box0]) (.found [box0]) (fun _ => f0) (fun _ => f0)
      (fun _ _ => 1 / 6)) = some (6667 / 100) ∧
    combinedSimilarity (fun _ _ => 1 / 6) f0 f0 = 2 / 3 ∧
    (6667 / 100 : ℚ) ≠
      max 0 (min 100 (combinedSimilarity (fun _ _ => 1 / 6) f0 f0 * 100)) := by
  have hcs : combinedSimilarity (fun _ _ => 1 / 6) f0 f0 = 2 / 3 := by
    norm_num [combinedSimilarity, intensitySimilarity, ratioSimilarity,
      sizeSimilarity, f0]
  have hm : max (0 : ℚ) (min 100 (2 / 3 * 100)) = 200 / 3 := by
    rw [min_eq_right (by norm_num), max_eq_right (by norm_num)]
    norm_num
  refine ⟨?_, hcs, ?_⟩
  · simp only [compare_faces_basic, extract_face_features, basicConfidence?,
      hcs]
    rw [hm]
    norm_num [round2, pyRound, round_eq, Int.floor_eq_iff]
  · rw [hcs, hm]
    norm_num

/-- C7 (amended): when extraction fails on one of the two inputs, the
comparison error code is the underlying code prefixed with CAMERA_IMAGE_
for the camera capture and with ID_CARD_IMAGE_ — not DOCUMENT_IMAGE_ —
for the document (ID card) photo, in both variants. -/
theorem C7_error_tagging_amended :
    (∀ (tol : ℚ) (cam idc : String) (in1 in2 : DlibInput)
        (fd : List ℚ → List ℚ → ℚ) (m c : String),
      extract_face_encoding in1 = .err m c →
      (compare_faces tol cam idc in1 in2 fd).code? =
        some ("CAMERA_IMAGE_" ++ c)) ∧
    (∀ (tol : ℚ) (cam idc : String) (in1 in2 : DlibInput)
        (fd : List ℚ → List ℚ → ℚ) (e : List ℚ) (b : FaceBox)
        (m c : String),
      extract_face_encoding in1 = .ok e b →
      extract_face_encoding in2 = .err m c →
      (compare_faces tol cam idc in1 in2 fd).code? =
        some ("ID_CARD_IMAGE_" ++ c)) ∧
    (∀ (cam idc : String) (in1 in2 : DetectInput)
        (mk1 mk2 : FaceBox → Features) (hc : List ℚ → List ℚ → ℚ)
        (m c : String),
      extract_face_features in1 mk1 = .err m c →
      (compare_faces_basic cam idc in1 in2 mk1 mk2 hc).code? =
        some ("CAMERA_IMAGE_" ++ c)) ∧
    (∀ (cam idc : String) (in1 in2 : DetectInput)
        (mk1 mk2 : FaceBox → Features) (hc : List ℚ → List ℚ → ℚ)
        (f : Features) (b : FaceBox) (m c : String),
      extract_face_features in1 mk1 = .ok f b →
      extract_face_features in2 mk2 = .err m c →
      (compare_faces_basic cam idc in1 in2 mk1 mk2 hc).code? =
        some ("ID_CARD_IMAGE_" ++ c)) := by
  refine ⟨?_, ?_, ?_, ?_⟩
  · intro tol cam idc in1 in2 fd m c h1
    simp only [compare_faces, h1, CompareOutcome.code?]
  · intro tol cam idc in1 in2 fd e b m c h1 h2
    simp only [compare_faces, h1, h2, CompareOutcome.code?]
  · intro cam idc in1 in2 mk1 mk2 hc m c h1
    simp only [compare_faces_basic, h1, CompareOutcome.code?]
  · intro cam idc in1 in2 mk1 mk2 hc f b m c h1 h2
    simp only [compare_faces_basic, h1, h2, CompareOutcome.code?]

/-- Witness for C7 (amended): a faceless second image yields the code
ID_CARD_IMAGE_NO_FACE_DETECTED. -/
theorem C7_error_tagging_amended_witness :
    (extract_face_encoding (.found [(box0, [0])]) = .ok [0] box0 ∧
      extract_face_encoding (.found []) =
        .err "No face detected in image" "NO_FACE_DETECTED") ∧
    (compare_faces defaultTolerance "cam.jpg" "id.jpg"
      (.found [(box0, [0])]) (.found []) (fun _ _ => 0)).code? =
      some ("ID_CARD_IMAGE_" ++ "NO_FACE_DETECTED") := by
  refine ⟨⟨rfl, rfl⟩, ?_⟩
  exact C7_error_tagging_amended.2.1 defaultTolerance "cam.jpg" "id.jpg"
    _ _ (fun _ _ => 0) [0] box0 "No face detected in image"
    "NO_FACE_DETECTED" rfl rfl

/-- Counterexample for C7 as stated: the code prefixes the document photo
failure with ID_CARD_IMAGE_, which differs from the claimed
DOCUMENT_IMAGE_ prefix. -/
theorem C7_error_tagging_counterexample :
    (compare_faces defaultTolerance "cam.jpg" "id.jpg"
      (.found [(box0, [0])]) (.found []) (fun _ _ => 0)).code? =
      some "ID_CARD_IMAGE_NO_FACE_DETECTED" ∧
    some "ID_CARD_IMAGE_NO_FACE_DETECTED" ≠
      some "DOCUMENT_IMAGE_NO_FACE_DETECTED" := by
  exact ⟨rfl, by decide⟩

/-- Helper: Python round to two decimals maps [0, 100] into [0, 100]. -/
theorem round2_bounds (q : ℚ) (h0 : 0 ≤ q) (h1 : q ≤ 100) :
    0 ≤ round2 q ∧ round2 q ≤ 100 := by
  have habs := abs_sub_round (q * 100)
  rw [abs_le] at habs
  obtain ⟨ha, hb⟩ := habs
  have hl2 : (0 : ℤ) ≤ round (q * 100) := by
    have hl : (-1 : ℚ) < ((round (q * 100) : ℤ) : ℚ) := by linarith
    have : (-1 : ℤ) < round (q * 100) := by exact_mod_cast hl
    omega
  have hu2 : round (q * 100) ≤ 10000 := by
    have hu : ((round (q * 100) : ℤ) : ℚ) < 10001 := by linarith
    have : round (q * 100) < (10001 : ℤ) := by exact_mod_cast hu
    omega
  have e : round2 q = ((round (q * 100) : ℤ) : ℚ) / 100 := by
    norm_num [round2, pyRound]
  rw [e]
  constructor
  · exact div_nonneg (by exact_mod_cast hl2) (by norm_num)
  · rw [div_le_iff₀ (by norm_num : (0 : ℚ) < 100)]
    calc ((round (q * 100) : ℤ) : ℚ) ≤ 10000 := by exact_mod_cast hu2
      _ = 100 * 100 := by norm_num

/-- Helper: the sum of squared differences is symmetric. -/
theorem sumSqDiff_comm : ∀ a b : List ℚ, sumSqDiff a b = sumSqDiff b a := by
  intro a
  induction a with
  | nil => intro b; cases b <;> rfl
  | cons x xs ih =>
    intro b
    cases b with
    | nil => rfl
    | cons y ys =>
      simp only [sumSqDiff]
      rw [ih ys]
      ring

/-- Helper: nonnegative rationals with equal squares are equal. -/
theorem eq_of_sq_eq_of_nonneg (a b : ℚ) (ha : 0 ≤ a) (hb : 0 ≤ b)
    (h : a ^ 2 = b ^ 2) : a = b := by
  have h2 := (sq_eq_sq_iff_abs_eq_abs a b).mp h
  rwa [abs_of_nonneg ha, abs_of_nonneg hb] at h2

/-- Helper: the embedding success record holds its recommendation key. -/
theorem jlookup_embSuccess_recommendation (r : EmbCompareOk)
    (cam idc ts : String) (student : JVal) :
    jlookup (embSuccessRecord r cam idc ts student) "recommendation" =
      some (.js (embRecommendation r.confidence)) := rfl

/-- Helper: the embedding success record holds a face_distance key. -/
theorem jlookup_embSuccess_face_distance (r : EmbCompareOk)
    (cam idc ts : String) (student : JVal) :
    jlookup (embSuccessRecord r cam idc ts student) "face_distance" =
      some (.jn r.face_distance) := rfl

/-- Helper: the fallback success record has no face_distance key. -/
theorem jlookup_basicSuccess_face_distance (r : BasicCompareOk)
    (cam idc ts : String) (student : JVal) :
    jlookup (basicSuccessRecord r cam idc ts student) "face_distance" =
      none := rfl

/-- Helper: the fallback success record holds a similarity_score key. -/
theorem jlookup_basicSuccess_similarity_score (r : BasicCompareOk)
    (cam idc ts : String) (student : JVal) :
    jlookup (basicSuccessRecord r cam idc ts student) "similarity_score" =
      some (.jn r.similarity_score) := rfl

/-- Helper: the fallback success record holds its recommendation key. -/
theorem jlookup_basicSuccess_recommendation (r : BasicCompareOk)
    (cam idc ts : String) (student : JVal) :
    jlookup (basicSuccessRecord r cam idc ts student) "recommendation" =
      some (.js (basicRecommendation r.confidence)) := rfl

/-- C5: every successful verification maps its confidence to a
recommendation tier with exact boundaries: embedding path >= 80 high,
>= 60 moderate, below low with manual review recommended; heuristic path
>= 70 moderate (basic method), >= 50 low (basic method), below very low
with manual review required (tier strings exactly as the code emits
them). -/
theorem C5_recommendation_tiers
    (tol : ℚ) (cam idc ts : String) (student : JVal)
    (in1 in2 : DlibInput) (fd : List ℚ → List ℚ → ℚ) (re : EmbCompareOk)
    (he : compare_faces tol cam idc in1 in2 fd = .ok re)
    (in3 in4 : DetectInput) (mk1 mk2 : FaceBox → Features)
    (hc : List ℚ → List ℚ → ℚ) (rb : BasicCompareOk)
    (hb : compare_faces_basic cam idc in3 in4 mk1 mk2 hc = .ok rb) :
    (80 ≤ re.confidence →
      jlookup (emb_verify_identity tol cam idc ts student in1 in2 fd)
        "recommendation" = some (.js "High confidence match")) ∧
    (60 ≤ re.confidence → re.confidence < 80 →
      jlookup (emb_verify_identity tol cam idc ts student in1 in2 fd)
        "recommendation" = some (.js "Moderate confidence match")) ∧
    (re.confidence < 60 →
      jlookup (emb_verify_identity tol cam idc ts student in1 in2 fd)
        "recommendation" =
        some (.js "Low confidence - manual review recommended")) ∧
    (70 ≤ rb.confidence →
      jlookup (basic_verify_identity cam idc ts student in3 in4 mk1 mk2 hc)
        "recommendation" =
        some (.js "Moderate confidence match (basic method)")) ∧
    (50 ≤ rb.confidence → rb.confidence < 70 →
      jlookup (basic_verify_identity cam idc ts student in3 in4 mk1 mk2 hc)
        "recommendation" =
        some (.js "Low confidence match (basic method)")) ∧
    (rb.confidence < 50 →
      jlookup (basic_verify_identity cam idc ts student in3 in4 mk1 mk2 hc)
        "recommendation" =
        some (.js "Very low confidence - manual review required")) := by
  have hee : emb_verify_identity tol cam idc ts student in1 in2 fd =
      embSuccessRecord re cam idc ts student := by
    simp only [emb_verify_identity, he]
  have hbb : basic_verify_identity cam idc ts student in3 in4 mk1 mk2 hc =
      basicSuccessRecord rb cam idc ts student := by
    simp only [basic_verify_identity, hb]
  rw [hee, hbb]
  refine ⟨?_, ?_, ?_, ?_, ?_, ?_⟩
  · intro h80
    rw [jlookup_embSuccess_recommendation, embRecommendation, if_pos h80]
  · intro h60 h80
    rw [jlookup_embSuccess_recommendation, embRecommendation,
      if_neg (not_le.mpr h80), if_pos h60]
  · intro h60
    rw [jlookup_embSuccess_recommendation, embRecommendation,
      if_neg (not_le.mpr (lt_of_lt_of_le h60 (by norm_num))),
      if_neg (not_le.mpr h60)]
  · intro h70
    rw [jlookup_basicSuccess_recommendation, basicRecommendation,
      if_pos h70]
  · intro h50 h70
    rw [jlookup_basicSuccess_recommendation, basicRecommendation,
      if_neg (not_le.mpr h70), if_pos h50]
  · intro h50
    rw [jlookup_basicSuccess_recommendation, basicRecommendation,
      if_neg (not_le.mpr (lt_of_lt_of_le h50 (by norm_num))),
      if_neg (not_le.mpr h50)]

/-- Witness for C5 at distance 0 (embedding, confidence 100) and combined
similarity 1 (heuristic, confidence 100). -/
theorem C5_recommendation_tiers_witness :
    jlookup (emb_verify_identity defaultTolerance "cam.jpg" "id.jpg" "t0"
      .jnull (.found [(box0, [0])]) (.found [(box0, [0])]) (fun _ _ => 0))
      "recommendation" = some (.js "High confidence match") ∧
    jlookup (basic_verify_identity "cam.jpg" "id.jpg" "t0" .jnull
      (.found [box0]) (.found [box0]) (fun _ => f0) (fun _ => f0)
      (fun _ _ => 1)) "recommendation" =
      some (.js "Moderate confidence match (basic method)") := by
  have he := compare_faces_ok_eq defaultTolerance "cam.jpg" "id.jpg"
    (.found [(box0, [0])]) (.found [(box0, [0])])
    (fun _ _ => 0) [0] [0] box0 box0 rfl rfl
  have hb := compare_faces_basic_ok_eq "cam.jpg" "id.jpg"
    (.found [box0]) (.found [box0])
    (fun _ => f0) (fun _ => f0) (fun _ _ => 1) f0 f0 box0 box0 rfl rfl
  have H := C5_recommendation_tiers defaultTolerance "cam.jpg" "id.jpg"
    "t0" .jnull _ _ (fun _ _ => 0) _ he _ _ (fun _ => f0) (fun _ => f0)
    (fun _ _ => 1) _ hb
  refine ⟨H.1 ?_, H.2.2.2.1 ?_⟩
  · show (80 : ℚ) ≤ round2 (max 0 ((1 - 0) * 100))
    rw [show max (0 : ℚ) ((1 - 0) * 100) = 100 by
      rw [max_eq_right] <;> norm_num]
    norm_num [round2, pyRound, round_eq, Int.floor_eq_iff]
  · show (70 : ℚ) ≤ round2 (max 0 (min 100
      (combinedSimilarity (fun _ _ => 1) f0 f0 * 100)))
    have hcs : combinedSimilarity (fun _ _ => 1) f0 f0 = 1 := by
      norm_num [combinedSimilarity, intensitySimilarity, ratioSimilarity,
        sizeSimilarity, f0]
    rw [hcs, show max (0 : ℚ) (min 100 (1 * 100)) = 100 by
      rw [min_eq_right (by norm_num), max_eq_right] <;> norm_num]
    norm_num [round2, pyRound, round_eq, Int.floor_eq_iff]

/-- C6: the /verify route handler (verify_identity in
verification_routes.py) runs the quality gate on both images before the
service verification; any quality failure makes the response the
POOR_IMAGE_QUALITY error whose issue list tags the failing image (camera
capture vs. ID document photo), and the response is then independent of
the verification outcome, so no detection or extraction result is ever
consulted for an image that failed the quality check. -/
theorem C6_route_quality_gate (camQ idQ : QualityReport)
    (h : camQ.valid = false ∨ idQ.valid = false) :
    (∀ v1 v2 : List (String × JVal),
      route_verify camQ idQ v1 = route_verify camQ idQ v2) ∧
    ∃ issues : List String,
      (∀ v : List (String × JVal),
        route_verify camQ idQ v =
          .qualityError "POOR_IMAGE_QUALITY" issues) ∧
      (camQ.valid = false → ("Camera image: " ++ camQ.message) ∈ issues) ∧
      (idQ.valid = false → ("ID card image: " ++ idQ.message) ∈ issues) := by
  have hne : ((if camQ.valid then ([] : List String)
      else ["Camera image: " ++ camQ.message]) ++
      (if idQ.valid then ([] : List String)
      else ["ID card image: " ++ idQ.message])) ≠ [] := by
    rcases h with h | h <;> rw [h] <;> simp
  refine ⟨fun v1 v2 => ?_,
    ⟨(if camQ.valid then ([] : List String)
        else ["Camera image: " ++ camQ.message]) ++
      (if idQ.valid then ([] : List String)
        else ["ID card image: " ++ idQ.message]),
      fun v => ?_, ?_, ?_⟩⟩
  · simp only [route_verify, if_neg hne]
  · simp only [route_verify, if_neg hne]
  · intro hcam
    rw [hcam]
    simp
  · intro hid
    rw [hid]
    simp

/-- Witness for C6: a too-dark camera image short-circuits the route. -/
theorem C6_route_quality_gate_witness :
    (QualityReport.invalid "Image is too dark for face recognition"
      "TOO_DARK").valid = false ∧
    ((∀ v1 v2 : List (String × JVal),
      route_verify
        (.invalid "Image is too dark for face recognition" "TOO_DARK")
        (.accepted "Image quality is acceptable for face recognition"
          "200x200" 100 150) v1 =
      route_verify
        (.invalid "Image is too dark for face recognition" "TOO_DARK")
        (.accepted "Image quality is acceptable for face recognition"
          "200x200" 100 150) v2) ∧
    ∃ issues : List String,
      (∀ v : List (String × JVal),
        route_verify
          (.invalid "Image is too dark for face recognition" "TOO_DARK")
          (.accepted "Image quality is acceptable for face recognition"
            "200x200" 100 150) v =
          .qualityError "POOR_IMAGE_QUALITY" issues) ∧
      ((QualityReport.invalid "Image is too dark for face recognition"
          "TOO_DARK").valid = false →
        ("Camera image: " ++
          (QualityReport.invalid "Image is too dark for face recognition"
            "TOO_DARK").message) ∈ issues) ∧
      ((QualityReport.accepted
          "Image quality is acceptable for face recognition"
          "200x200" 100 150).valid = false →
        ("ID card image: " ++
          (QualityReport.accepted
            "Image quality is acceptable for face recognition"
            "200x200" 100 150).message) ∈ issues)) :=
  ⟨rfl, C6_route_quality_gate _ _ (Or.inl rfl)⟩

/-- C8: every successful comparison reports a confidence in [0, 100], and
is_match is exactly the comparison of the score with the active threshold
(embedding distance against the tolerance; combined heuristic similarity
against the 0.4 threshold). -/
theorem C8_confidence_bounds
    (tol : ℚ) (cam idc : String) (in1 in2 : DlibInput)
    (fd : List ℚ → List ℚ → ℚ) (e1 e2 : List ℚ) (b1 b2 : FaceBox)
    (h1 : extract_face_encoding in1 = .ok e1 b1)
    (h2 : extract_face_encoding in2 = .ok e2 b2)
    (hd : 0 ≤ fd e1 e2)
    (in3 in4 : DetectInput) (mk1 mk2 : FaceBox → Features)
    (hc : List ℚ → List ℚ → ℚ) (f1 f2 : Features) (b3 b4 : FaceBox)
    (h3 : extract_face_features in3 mk1 = .ok f1 b3)
    (h4 : extract_face_features in4 mk2 = .ok f2 b4) :
    (∃ r, compare_faces tol cam idc in1 in2 fd = .ok r ∧
      0 ≤ r.confidence ∧ r.confidence ≤ 100 ∧
      r.is_match = decide (fd e1 e2 ≤ tol)) ∧
    (∃ r, compare_faces_basic cam idc in3 in4 mk1 mk2 hc = .ok r ∧
      0 ≤ r.confidence ∧ r.confidence ≤ 100 ∧
      r.is_match = decide (basicThreshold ≤ combinedSimilarity hc f1 f2)) := by
  constructor
  · refine ⟨_, compare_faces_ok_eq tol cam idc in1 in2 fd e1 e2 b1 b2 h1 h2,
      ?_, ?_, rfl⟩
    · exact (round2_bounds _ (le_max_left 0 _)
        (max_le (by norm_num) (by linarith))).1
    · exact (round2_bounds _ (le_max_left 0 _)
        (max_le (by norm_num) (by linarith))).2
  · refine ⟨_, compare_faces_basic_ok_eq cam idc in3 in4 mk1 mk2 hc f1 f2
      b3 b4 h3 h4, ?_, ?_, rfl⟩
    · exact (round2_bounds _ (le_max_left 0 _)
        (max_le (by norm_num) (min_le_left 100 _))).1
    · exact (round2_bounds _ (le_max_left 0 _)
        (max_le (by norm_num) (min_le_left 100 _))).2

/-- Witness for C8 at distance 1 and histogram correlation 1. -/
theorem C8_confidence_bounds_witness :
    (0 ≤ (1 : ℚ)) ∧
    ((∃ r, compare_faces defaultTolerance "cam.jpg" "id.jpg"
        (.found [(box0, [1])]) (.found [(box0, [0])])
        (fun _ _ => 1) = .ok r ∧
      0 ≤ r.confidence ∧ r.confidence ≤ 100 ∧
      r.is_match = decide ((1 : ℚ) ≤ defaultTolerance)) ∧
    (∃ r, compare_faces_basic "cam.jpg" "id.jpg" (.found [box0])
        (.found [box0]) (fun _ => f0) (fun _ => f0) (fun _ _ => 1) = .ok r ∧
      0 ≤ r.confidence ∧ r.confidence ≤ 100 ∧
      r.is_match = decide (basicThreshold ≤
        combinedSimilarity (fun _ _ => 1) f0 f0))) :=
  ⟨by norm_num, C8_confidence_bounds defaultTolerance "cam.jpg" "id.jpg"
    (.found [(box0, [1])]) (.found [(box0, [0])])
    (fun _ _ => 1) [1] [0] box0 box0 rfl rfl (by norm_num)
    (.found [box0]) (.found [box0])
    (fun _ => f0) (fun _ => f0) (fun _ _ => 1) f0 f0 box0 box0 rfl rfl⟩

/-- C9: on pairs where comparison succeeds, swapping the two inputs gives
the same score in both variants: the Euclidean face distance is unchanged
(the sum of squared differences is symmetric and the nonnegative root is
unique), and the combined heuristic similarity is unchanged (its four
sub-scores are symmetric, given that the library histogram correlation is
symmetric on the pair). -/
theorem C9_compare_symmetry
    (tol : ℚ) (cam idc : String) (b1 b2 : FaceBox) (e1 e2 : List ℚ)
    (fd : List ℚ → List ℚ → ℚ)
    (hd1 : 0 ≤ fd e1 e2) (hq1 : (fd e1 e2) ^ 2 = sumSqDiff e1 e2)
    (hd2 : 0 ≤ fd e2 e1) (hq2 : (fd e2 e1) ^ 2 = sumSqDiff e2 e1)
    (f1 f2 : Features) (hc : List ℚ → List ℚ → ℚ)
    (hhc : hc f1.histogram f2.histogram = hc f2.histogram f1.histogram) :
    embDistance? (compare_faces tol cam idc (.found [(b1, e1)])
        (.found [(b2, e2)]) fd) =
      embDistance? (compare_faces tol cam idc (.found [(b2, e2)])
        (.found [(b1, e1)]) fd) ∧
    combinedSimilarity hc f1 f2 = combinedSimilarity hc f2 f1 ∧
    basicScore? (compare_faces_basic cam idc (.found [b1]) (.found [b2])
        (fun _ => f1) (fun _ => f2) hc) =
      basicScore? (compare_faces_basic cam idc (.found [b2]) (.found [b1])
        (fun _ => f2) (fun _ => f1) hc) := by
  have hfd : fd e1 e2 = fd e2 e1 :=
    eq_of_sq_eq_of_nonneg _ _ hd1 hd2
      (by rw [hq1, hq2, sumSqDiff_comm])
  have hcs : combinedSimilarity hc f1 f2 = combinedSimilarity hc f2 f1 := by
    unfold combinedSimilarity intensitySimilarity ratioSimilarity
      sizeSimilarity
    rw [hhc, abs_sub_comm f1.mean_intensity f2.mean_intensity,
      abs_sub_comm f1.aspect_ratio f2.aspect_ratio,
      min_comm f1.face_area f2.face_area,
      max_comm f1.face_area f2.face_area]
  refine ⟨?_, hcs, ?_⟩
  · rw [compare_faces_ok_eq tol cam idc (.found [(b1, e1)])
      (.found [(b2, e2)]) fd e1 e2 b1 b2 rfl rfl,
      compare_faces_ok_eq tol cam idc (.found [(b2, e2)])
      (.found [(b1, e1)]) fd e2 e1 b2 b1 rfl rfl]
    simp only [embDistance?]
    rw [hfd]
  · rw [compare_faces_basic_ok_eq cam idc (.found [b1]) (.found [b2])
      (fun _ => f1) (fun _ => f2) hc f1 f2 b1 b2 rfl rfl,
      compare_faces_basic_ok_eq cam idc (.found [b2]) (.found [b1])
      (fun _ => f2) (fun _ => f1) hc f2 f1 b2 b1 rfl rfl]
    simp only [basicScore?]
    rw [hcs]

/-- Witness for C9 at encodings [1], [0] and identical features. -/
theorem C9_compare_symmetry_witness :
    (0 ≤ (1 : ℚ) ∧ ((1 : ℚ)) ^ 2 = sumSqDiff [1] [0] ∧
      ((1 : ℚ)) ^ 2 = sumSqDiff [0] [1]) ∧
    (embDistance? (compare_faces defaultTolerance "cam.jpg" "id.jpg"
        (.found [(box0, [1])]) (.found [(box0, [0])]) (fun _ _ => 1)) =
      embDistance? (compare_faces defaultTolerance "cam.jpg" "id.jpg"
        (.found [(box0, [0])]) (.found [(box0, [1])]) (fun _ _ => 1)) ∧
    combinedSimilarity (fun _ _ => 1 / 2) f0 f0 =
      combinedSimilarity (fun _ _ => 1 / 2) f0 f0 ∧
    basicScore? (compare_faces_basic "cam.jpg" "id.jpg" (.found [box0])
        (.found [box0]) (fun _ => f0) (fun _ => f0) (fun _ _ => 1 / 2)) =
      basicScore? (compare_faces_basic "cam.jpg" "id.jpg" (.found [box0])
        (.found [box0]) (fun _ => f0) (fun _ => f0) (fun _ _ => 1 / 2))) :=
  ⟨⟨by norm_num, by norm_num [sumSqDiff], by norm_num [sumSqDiff]⟩,
    C9_compare_symmetry defaultTolerance "cam.jpg" "id.jpg" box0 box0
      [1] [0] (fun _ _ => 1) (by norm_num) (by norm_num [sumSqDiff])
      (by norm_num) (by norm_num [sumSqDiff]) f0 f0 (fun _ _ => 1 / 2) rfl⟩

/-- C10: the success records of the two verify_identity variants differ
in shape: the fallback record carries similarity_score and no
face_distance key, while the embedding record carries face_distance, so
the face_distance lookup the /verify route success path performs fails
(KeyError, modelled as none) on every successful fallback verification. -/
theorem C10_record_shape
    (cam idc ts : String) (student : JVal)
    (in1 in2 : DetectInput) (mk1 mk2 : FaceBox → Features)
    (hc : List ℚ → List ℚ → ℚ) (rb : BasicCompareOk)
    (hb : compare_faces_basic cam idc in1 in2 mk1 mk2 hc = .ok rb)
    (tol : ℚ) (in3 in4 : DlibInput) (fd : List ℚ → List ℚ → ℚ)
    (re : EmbCompareOk)
    (he : compare_faces tol cam idc in3 in4 fd = .ok re) :
    route_success_face_distance
      (basic_verify_identity cam idc ts student in1 in2 mk1 mk2 hc) =
      none ∧
    jlookup (basic_verify_identity cam idc ts student in1 in2 mk1 mk2 hc)
      "similarity_score" = some (.jn rb.similarity_score) ∧
    route_success_face_distance
      (emb_verify_identity tol cam idc ts student in3 in4 fd) =
      some (.jn re.face_distance) := by
  have hbb : basic_verify_identity cam idc ts student in1 in2 mk1 mk2 hc =
      basicSuccessRecord rb cam idc ts student := by
    simp only [basic_verify_identity, hb]
  have hee : emb_verify_identity tol cam idc ts student in3 in4 fd =
      embSuccessRecord re cam idc ts student := by
    simp only [emb_verify_identity, he]
  refine ⟨?_, ?_, ?_⟩
  · simp only [route_success_face_distance, hbb,
      jlookup_basicSuccess_face_distance]
  · simp only [hbb, jlookup_basicSuccess_similarity_score]
  · simp only [route_success_face_distance, hee,
      jlookup_embSuccess_face_distance]

/-- Witness for C10 at concrete successful comparisons in both variants. -/
theorem C10_record_shape_witness :
    route_success_face_distance
      (basic_verify_identity "cam.jpg" "id.jpg" "t0" .jnull (.found [box0])
        (.found [box0]) (fun _ => f0) (fun _ => f0) (fun _ _ => 1)) =
      none ∧
    route_success_face_distance
      (emb_verify_identity defaultTolerance "cam.jpg" "id.jpg" "t0" .jnull
        (.found [(box0, [0])]) (.found [(box0, [0])]) (fun _ _ => 0)) =
      some (.jn (round4 0)) := by
  have H := C10_record_shape "cam.jpg" "id.jpg" "t0" .jnull
    (.found [box0]) (.found [box0]) (fun _ => f0) (fun _ => f0)
    (fun _ _ => 1) _
    (compare_faces_basic_ok_eq "cam.jpg" "id.jpg" _ _ (fun _ => f0)
      (fun _ => f0) (fun _ _ => 1) f0 f0 box0 box0 rfl rfl)
    defaultTolerance (.found [(box0, [0])]) (.found [(box0, [0])])
    (fun _ _ => 0) _
    (compare_faces_ok_eq defaultTolerance "cam.jpg" "id.jpg" _ _
      (fun _ _ => 0) [0] [0] box0 box0 rfl rfl)
  exact ⟨H.1, H.2.2⟩

end IdVerif
